import Mathlib

/-!
Shallow embedding of `src/server/src/db/postgres.ts`: environment detection,
Prisma client options, the logging middleware installed with `client.$use`,
the `beforeExit` handler, the global-slot singleton initialization, and the
`gracefulExit` signal handler.
-/

/-- A JavaScript runtime value, as far as the middleware inspects results:
it distinguishes arrays (`Array.isArray`), objects (`typeof === "object"`
together with truthiness), and everything else. -/
inductive JSValue where
  | null
  | undef
  | bool (b : Bool)
  | num (n : Int)
  | str (s : String)
  | arr (elems : List JSValue)
  | obj (fields : List (String × JSValue))

/-- JavaScript truthiness of a value (`result && ...` in the source). -/
def jsTruthy : JSValue → Bool
  | JSValue.null => false
  | JSValue.undef => false
  | JSValue.bool b => b
  | JSValue.num n => n != 0
  | JSValue.str s => s != ""
  | JSValue.arr _ => true
  | JSValue.obj _ => true

/-- The JavaScript `typeof` operator on a value (note `typeof null` is
`"object"`). -/
def jsTypeof : JSValue → String
  | JSValue.null => "object"
  | JSValue.undef => "undefined"
  | JSValue.bool _ => "boolean"
  | JSValue.num _ => "number"
  | JSValue.str _ => "string"
  | JSValue.arr _ => "object"
  | JSValue.obj _ => "object"

/-- One line written to the console: `out` for `console.log`,
`err` for `console.error`. -/
inductive LogEntry where
  | out (line : String)
  | err (line : String)
deriving DecidableEq, Repr

/-- `const isProd = process.env.NODE_ENV === "production"` (line 5):
`none` models an unset variable. -/
def isProd (nodeEnv : Option String) : Bool :=
  nodeEnv == some "production"

/-- The Prisma log levels named by `PrismaLogLevel` (line 8). -/
inductive PrismaLogLevel where
  | query
  | info
  | warn
  | error
deriving DecidableEq, Repr

/-- `const prismaLog = isProd ? ["warn","error"] : ["info","warn","error"]`
(line 9). -/
def prismaLog (prodFlag : Bool) : List PrismaLogLevel :=
  if prodFlag then [PrismaLogLevel.warn, PrismaLogLevel.error]
  else [PrismaLogLevel.info, PrismaLogLevel.warn, PrismaLogLevel.error]

/-- The `errorFormat` values used by the source (line 14). -/
inductive ErrorFormat where
  | minimal
  | pretty
deriving DecidableEq, Repr

/-- The options record passed to `new PrismaClient` (lines 12-15). -/
structure PrismaOptions where
  log : List PrismaLogLevel
  errorFormat : ErrorFormat
deriving DecidableEq, Repr

/-- `const prismaOptions = { log: prismaLog, errorFormat: isProd ? "minimal"
: "pretty" }` (lines 12-15), as a function of the production flag. -/
def prismaOptions (prodFlag : Bool) : PrismaOptions :=
  { log := prismaLog prodFlag
    errorFormat := if prodFlag then ErrorFormat.minimal else ErrorFormat.pretty }

/-- `PrismaMiddlewareParams` (line 18): the middleware reads only the
optional `model` and `action` fields; the rest of the parameter bag is
opaque and passed through wholesale. -/
structure MiddlewareParams where
  model : Option String
  action : Option String
deriving DecidableEq, Repr

/-- The `size` string computed on the success path (lines 36-42):
arrays report their element count, other truthy values of object type
report a single item, everything else reports nothing. -/
def sizeNote (result : JSValue) : String :=
  let isObject := jsTruthy result && (jsTypeof result == "object")
  match result with
  | JSValue.arr elems => " items=" ++ toString elems.length
  | _ => if isObject then " item=1" else ""

/-- The success log line (lines 43-45):
`[prisma] model.action (ms ms)size` with defaults applied. -/
def okLine (params : MiddlewareParams) (ms : Nat) (result : JSValue) : String :=
  "[prisma] " ++ params.model.getD "$internal" ++ "." ++ params.action.getD "$op" ++
    " (" ++ toString ms ++ " ms)" ++ sizeNote result

/-- The failure log line (lines 50-52):
`[prisma] model.action FAILED after ms ms` with defaults applied. -/
def failLine (params : MiddlewareParams) (ms : Nat) : String :=
  "[prisma] " ++ params.model.getD "$internal" ++ "." ++ params.action.getD "$op" ++
    " FAILED after " ++ toString ms ++ " ms"

/-- The `client.$use` middleware body (lines 29-55). `next` is the
continuation, invoked on the received parameter record; `ms` is the elapsed
time observed between the two `Date.now()` calls. Returns the console lines
written and the outcome delivered to the caller: on success the result is
returned (logged only outside production), on failure the error line is
written and the original error rethrown. -/
def middlewareRun {ε : Type} (prodFlag : Bool) (params : MiddlewareParams) (ms : Nat)
    (next : MiddlewareParams → Except ε JSValue) : List LogEntry × Except ε JSValue :=
  match next params with
  | Except.ok result =>
      (if !prodFlag then [LogEntry.out (okLine params ms result)] else [],
       Except.ok result)
  | Except.error e =>
      ([LogEntry.err (failLine params ms)], Except.error e)

/-- The `beforeExit` handler (lines 57-60): outside production it logs the
transition, then awaits `$disconnect`; there is no `try`/`catch`, so a
rejected disconnect rejects the handler itself. `disc` is the outcome of
`client.$disconnect()`. -/
def beforeExitHandler (prodFlag : Bool) (disc : Except String Unit) :
    List LogEntry × Except String Unit :=
  let logs := if !prodFlag then [LogEntry.out "[prisma] beforeExit ⇒ disconnect"] else []
  match disc with
  | Except.ok _ => (logs, Except.ok ())
  | Except.error e => (logs, Except.error e)

/-- The line logged on receipt of a signal (line 73). -/
def recvLine (signal : String) : String :=
  "[prisma] Received " ++ signal ++ ". Closing DB connections..."

/-- The line written by `console.error` when `$disconnect` fails inside
`gracefulExit` (line 76). -/
def discErrLine (e : String) : String :=
  "[prisma] Error during disconnect: " ++ e

/-- `gracefulExit` (lines 71-78): log the received signal, await
`$disconnect`; a failure is caught, logged with `console.error`, and not
rethrown, so the function always resolves. `disc` is the outcome of
`prisma.$disconnect()`. -/
def gracefulExit (signal : String) (disc : Except String Unit) :
    List LogEntry × Except String Unit :=
  match disc with
  | Except.ok _ => ([LogEntry.out (recvLine signal)], Except.ok ())
  | Except.error e =>
      ([LogEntry.out (recvLine signal), LogEntry.err (discErrLine e)], Except.ok ())

/-- Two sequential invocations of `gracefulExit` (two termination signals
arriving one after the other): the logs concatenate and the overall outcome
is that of the second run. -/
def gracefulExitTwice (s1 s2 : String) (d1 d2 : Except String Unit) :
    List LogEntry × Except String Unit :=
  let r1 := gracefulExit s1 d1
  let r2 := gracefulExit s2 d2
  (r1.1 ++ r2.1, r2.2)

/-- One evaluation of the module tail (lines 65-66):
`const prismaBase = globalThis.__prisma__ ?? createClient();`
`if (!isProd) globalThis.__prisma__ = prismaBase;`
`slot` is the current content of `globalThis.__prisma__`, `fresh` the client
`createClient()` would build; returns the exported handle and the slot
content after this evaluation. -/
def moduleInit {C : Type} (prodFlag : Bool) (slot : Option C) (fresh : C) :
    C × Option C :=
  let prismaBase := slot.getD fresh
  (prismaBase, if !prodFlag then some prismaBase else slot)

/-- A sequence of module evaluations (hot reloads) in one process: each
one runs `moduleInit` with its own freshly buildable client; returns the
list of exported handles and the final slot content. -/
def runInits {C : Type} (prodFlag : Bool) (freshes : List C) (slot : Option C) :
    List C × Option C :=
  match freshes with
  | [] => ([], slot)
  | f :: fs =>
      let step := moduleInit prodFlag slot f
      let rest := runInits prodFlag fs step.2
      (step.1 :: rest.1, rest.2)

/-- Helper: in non-production, once the global slot holds a client `c`,
every further module evaluation exports `c` and leaves the slot at `c`. -/
theorem runInits_nonprod_stable {C : Type} (c : C) (fs : List C) :
    runInits false fs (some c) = (List.replicate fs.length c, some c) := by
  induction fs with
  | nil => rfl
  | cons f fs ih => simp [runInits, moduleInit, ih, List.replicate_succ]

/-- Claim C1: for every intercepted operation that fails, in all modes
(production or not), the middleware writes exactly one error log line — the
failure line built from the model name, the action name, and the elapsed
milliseconds — and rethrows the original error unchanged. -/
theorem middleware_failure_logs_and_rethrows {ε : Type} (prodFlag : Bool)
    (params : MiddlewareParams) (ms : Nat)
    (next : MiddlewareParams → Except ε JSValue) (e : ε)
    (h : next params = Except.error e) :
    middlewareRun prodFlag params ms next =
      ([LogEntry.err (failLine params ms)], Except.error e) := by
  simp [middlewareRun, h]

/-- Witness for C1: model `User`, action `findMany`, elapsed 7 ms, a failing
continuation with error `boom`, in production mode. -/
theorem middleware_failure_logs_and_rethrows_witness :
    (fun _ : MiddlewareParams => (Except.error "boom" : Except String JSValue))
        ⟨some "User", some "findMany"⟩ = Except.error "boom" ∧
    middlewareRun true ⟨some "User", some "findMany"⟩ 7
        (fun _ => (Except.error "boom" : Except String JSValue)) =
      ([LogEntry.err (failLine ⟨some "User", some "findMany"⟩ 7)],
        Except.error "boom") :=
  ⟨rfl, middleware_failure_logs_and_rethrows true ⟨some "User", some "findMany"⟩ 7
      (fun _ => Except.error "boom") "boom" rfl⟩

/-- Claim C2 counterexample: on the before-exit trigger path a failing
disconnect is neither caught nor logged — the handler writes only the
transition line and the disconnect error propagates out of it, so the claim
that every trigger path logs disconnect errors without rethrowing is false. -/
theorem beforeExit_disconnect_error_propagates :
    beforeExitHandler false (Except.error "disconnect failure") =
      ([LogEntry.out "[prisma] beforeExit ⇒ disconnect"],
        Except.error "disconnect failure") :=
  rfl

/-- Claim C2 (amended): the signal-handler shutdown action `gracefulExit`
always resolves (never rethrows), running it twice in sequence also resolves,
and a failing disconnect gets its error logged on the error stream. -/
theorem gracefulExit_swallows_disconnect_errors (s1 s2 : String)
    (d1 d2 : Except String Unit) :
    (gracefulExit s1 d1).2 = Except.ok () ∧
    (gracefulExitTwice s1 s2 d1 d2).2 = Except.ok () ∧
    ∀ e : String, LogEntry.err (discErrLine e) ∈ (gracefulExit s1 (Except.error e)).1 := by
  refine ⟨?_, ?_, ?_⟩
  · cases d1 <;> rfl
  · cases d2 <;> rfl
  · intro e
    simp [gracefulExit]

/-- Claim C3: in a non-production process, any sequence of module
evaluations starting from an empty global slot exports the first-created
client every time, and the slot holds exactly that client throughout. -/
theorem nonprod_singleton_handle {C : Type} (f : C) (fs : List C) :
    runInits false (f :: fs) none = (List.replicate (fs.length + 1) f, some f) := by
  simp [runInits, moduleInit, runInits_nonprod_stable, List.replicate_succ]

/-- Claim C4: a successful operation returning an array of length N logs, in
non-production, the success line whose size part is ` items=N`; in particular
a 3-element array yields ` items=3`. -/
theorem success_array_logs_items_count (params : MiddlewareParams) (ms : Nat)
    (xs : List JSValue) (next : MiddlewareParams → Except String JSValue)
    (h : next params = Except.ok (JSValue.arr xs)) :
    middlewareRun false params ms next =
      ([LogEntry.out (okLine params ms (JSValue.arr xs))],
        Except.ok (JSValue.arr xs)) ∧
    sizeNote (JSValue.arr xs) = " items=" ++ toString xs.length ∧
    sizeNote (JSValue.arr [JSValue.null, JSValue.null, JSValue.null]) = " items=3" := by
  refine ⟨by simp [middlewareRun, h], rfl, rfl⟩

/-- Witness for C4: a 3-element array result, model `User`, action
`findMany`, elapsed 5 ms, in non-production mode. -/
theorem success_array_logs_items_count_witness :
    (fun _ : MiddlewareParams =>
        (Except.ok (JSValue.arr [JSValue.null, JSValue.null, JSValue.null]) :
          Except String JSValue)) ⟨some "User", some "findMany"⟩ =
      Except.ok (JSValue.arr [JSValue.null, JSValue.null, JSValue.null]) ∧
    middlewareRun false ⟨some "User", some "findMany"⟩ 5
        (fun _ =>
          (Except.ok (JSValue.arr [JSValue.null, JSValue.null, JSValue.null]) :
            Except String JSValue)) =
      ([LogEntry.out (okLine ⟨some "User", some "findMany"⟩ 5
          (JSValue.arr [JSValue.null, JSValue.null, JSValue.null]))],
        Except.ok (JSValue.arr [JSValue.null, JSValue.null, JSValue.null])) :=
  ⟨rfl, (success_array_logs_items_count ⟨some "User", some "findMany"⟩ 5
      [JSValue.null, JSValue.null, JSValue.null]
      (fun _ => Except.ok (JSValue.arr [JSValue.null, JSValue.null, JSValue.null]))
      rfl).1⟩

/-- Claim C5: a successful operation returning a non-array object logs, in
non-production, the success line with size part ` item=1`; a null or absent
result carries no size part at all. -/
theorem success_object_logs_item_one (params : MiddlewareParams) (ms : Nat)
    (fields : List (String × JSValue))
    (next : MiddlewareParams → Except String JSValue)
    (h : next params = Except.ok (JSValue.obj fields)) :
    middlewareRun false params ms next =
      ([LogEntry.out (okLine params ms (JSValue.obj fields))],
        Except.ok (JSValue.obj fields)) ∧
    sizeNote (JSValue.obj fields) = " item=1" ∧
    sizeNote JSValue.null = "" ∧ sizeNote JSValue.undef = "" :=
  ⟨by simp [middlewareRun, h], rfl, rfl, rfl⟩

/-- Witness for C5: a one-field object result, model `User`, action
`findUnique`, elapsed 4 ms, in non-production mode. -/
theorem success_object_logs_item_one_witness :
    (fun _ : MiddlewareParams =>
        (Except.ok (JSValue.obj [("id", JSValue.num 1)]) : Except String JSValue))
        ⟨some "User", some "findUnique"⟩ =
      Except.ok (JSValue.obj [("id", JSValue.num 1)]) ∧
    middlewareRun false ⟨some "User", some "findUnique"⟩ 4
        (fun _ =>
          (Except.ok (JSValue.obj [("id", JSValue.num 1)]) : Except String JSValue)) =
      ([LogEntry.out (okLine ⟨some "User", some "findUnique"⟩ 4
          (JSValue.obj [("id", JSValue.num 1)]))],
        Except.ok (JSValue.obj [("id", JSValue.num 1)])) :=
  ⟨rfl, (success_object_logs_item_one ⟨some "User", some "findUnique"⟩ 4
      [("id", JSValue.num 1)]
      (fun _ => Except.ok (JSValue.obj [("id", JSValue.num 1)])) rfl).1⟩

/-- Claim C6: in production mode a successful operation writes no log line
at all, while a failing operation still writes the error log line. -/
theorem prod_success_silent_failure_logged (params : MiddlewareParams) (ms : Nat)
    (v : JSValue) (e : String)
    (next1 next2 : MiddlewareParams → Except String JSValue)
    (h1 : next1 params = Except.ok v) (h2 : next2 params = Except.error e) :
    middlewareRun true params ms next1 = ([], Except.ok v) ∧
    middlewareRun true params ms next2 =
      ([LogEntry.err (failLine params ms)], Except.error e) :=
  ⟨by simp [middlewareRun, h1], by simp [middlewareRun, h2]⟩

/-- Witness for C6: production mode, model `User`, action `count`, elapsed
2 ms, one succeeding and one failing continuation. -/
theorem prod_success_silent_failure_logged_witness :
    (fun _ : MiddlewareParams => (Except.ok (JSValue.num 3) : Except String JSValue))
        ⟨some "User", some "count"⟩ = Except.ok (JSValue.num 3) ∧
    (fun _ : MiddlewareParams => (Except.error "down" : Except String JSValue))
        ⟨some "User", some "count"⟩ = Except.error "down" ∧
    (middlewareRun true ⟨some "User", some "count"⟩ 2
        (fun _ => (Except.ok (JSValue.num 3) : Except String JSValue)) =
      ([], Except.ok (JSValue.num 3)) ∧
    middlewareRun true ⟨some "User", some "count"⟩ 2
        (fun _ => (Except.error "down" : Except String JSValue)) =
      ([LogEntry.err (failLine ⟨some "User", some "count"⟩ 2)], Except.error "down")) :=
  ⟨rfl, rfl, prod_success_silent_failure_logged ⟨some "User", some "count"⟩ 2
      (JSValue.num 3) "down" (fun _ => Except.ok (JSValue.num 3))
      (fun _ => Except.error "down") rfl rfl⟩

/-- Claim C7: the middleware's only effect is the log list it produces; the
outcome it delivers is exactly what the continuation produces on the
unmodified parameter record — results and errors are never altered. -/
theorem middleware_preserves_outcome {ε : Type} (prodFlag : Bool)
    (params : MiddlewareParams) (ms : Nat)
    (next : MiddlewareParams → Except ε JSValue) :
    (middlewareRun prodFlag params ms next).2 = next params := by
  cases h : next params <;> simp [middlewareRun, h]

/-- Claim C8: the mode is production exactly when the environment variable
equals the marker string; an unset variable yields non-production. -/
theorem isProd_iff_marker (env : Option String) :
    (isProd env = true ↔ env = some "production") ∧ isProd none = false := by
  constructor
  · simp [isProd]
  · rfl

/-- Claim C9: the client options record only warnings and errors with the
minimal error format in production, and informational, warning, and error
events with the pretty error format otherwise. -/
theorem client_options_by_mode :
    prismaOptions true =
      { log := [PrismaLogLevel.warn, PrismaLogLevel.error],
        errorFormat := ErrorFormat.minimal } ∧
    prismaOptions false =
      { log := [PrismaLogLevel.info, PrismaLogLevel.warn, PrismaLogLevel.error],
        errorFormat := ErrorFormat.pretty } :=
  ⟨rfl, rfl⟩

/-- Claim C10: a successful operation whose result is not of runtime object
type (numbers, booleans, strings, undefined) logs, in non-production, the
success line with no size part at all. -/
theorem success_nonobject_no_size_note (params : MiddlewareParams) (ms : Nat)
    (v : JSValue) (next : MiddlewareParams → Except String JSValue)
    (h : next params = Except.ok v) (hv : jsTypeof v ≠ "object") :
    middlewareRun false params ms next =
      ([LogEntry.out (okLine params ms v)], Except.ok v) ∧
    sizeNote v = "" := by
  refine ⟨by simp [middlewareRun, h], ?_⟩
  cases v with
  | null => exact absurd rfl hv
  | arr elems => exact absurd rfl hv
  | obj fields => exact absurd rfl hv
  | undef => rfl
  | bool b =>
      have hb : (("boolean" : String) == "object") = false := by decide
      simp [sizeNote, jsTypeof, hb]
  | num n =>
      have hb : (("number" : String) == "object") = false := by decide
      simp [sizeNote, jsTypeof, hb]
  | str s =>
      have hb : (("string" : String) == "object") = false := by decide
      simp [sizeNote, jsTypeof, hb]

/-- Witness for C10: the numeric result 42, model `User`, action `count`,
elapsed 1 ms, in non-production mode. -/
theorem success_nonobject_no_size_note_witness :
    (fun _ : MiddlewareParams => (Except.ok (JSValue.num 42) : Except String JSValue))
        ⟨some "User", some "count"⟩ = Except.ok (JSValue.num 42) ∧
    jsTypeof (JSValue.num 42) ≠ "object" ∧
    (middlewareRun false ⟨some "User", some "count"⟩ 1
        (fun _ => (Except.ok (JSValue.num 42) : Except String JSValue)) =
      ([LogEntry.out (okLine ⟨some "User", some "count"⟩ 1 (JSValue.num 42))],
        Except.ok (JSValue.num 42)) ∧
    sizeNote (JSValue.num 42) = "") :=
  ⟨rfl, by decide, success_nonobject_no_size_note ⟨some "User", some "count"⟩ 1
      (JSValue.num 42) (fun _ => Except.ok (JSValue.num 42)) rfl (by decide)⟩
